import Mathlib

-- Verification of the hotspot controller (src/src/main.rs).
-- Rust strings are modelled as Lean strings over their characters; all data
-- handled by the program (MAC addresses, command lines, tool output) is ASCII,
-- so Rust byte length coincides with character count and the ASCII versions
-- of case folding and the character classes used by the regular expressions
-- are exact on the inputs of interest.

-- ## Character utilities

def asciiLower (c : Char) : Char :=
  if 'A' ≤ c && c ≤ 'Z' then Char.ofNat (c.toNat + 32) else c

def asciiUpper (c : Char) : Char :=
  if 'a' ≤ c && c ≤ 'z' then Char.ofNat (c.toNat - 32) else c

def isWSChar (c : Char) : Bool :=
  c = ' ' || c = '\t' || c = '\n' || c = '\r'

def isWordChar (c : Char) : Bool :=
  c.isAlphanum || c = '_'

-- character class [0-9a-fA-F:] used by the MAC regular expressions
def isMacChar (c : Char) : Bool :=
  c.isDigit || ('a' ≤ c && c ≤ 'f') || ('A' ≤ c && c ≤ 'F') || c = ':'

def eqICList (a b : List Char) : Bool :=
  a.map asciiLower == b.map asciiLower

def startsWithL (p s : List Char) : Bool :=
  s.take p.length == p

def openBrace : Char := Char.ofNat 123

def closeBrace : Char := Char.ofNat 125

-- ## Rust line splitting: str::lines

def splitNL : List Char → List (List Char)
  | [] => [[]]
  | c :: rest =>
    match splitNL rest with
    | [] => [[]]
    | h :: t => if c = '\n' then [] :: h :: t else (c :: h) :: t

def stripCR (l : List Char) : List Char :=
  if l.getLast? = some '\r' then l.dropLast else l

def charLines (s : List Char) : List (List Char) :=
  (if (splitNL s).getLast? = some [] then (splitNL s).dropLast else splitNL s).map stripCR

def rustLines (s : String) : List String :=
  (charLines s.data).map (fun l => String.mk l)

def strEqIC (a b : String) : Bool :=
  eqICList a.data b.data

def strUpper (s : String) : String :=
  String.mk (s.data.map asciiUpper)

def joinNL : List String → String
  | [] => ""
  | [l] => l
  | l :: rest => l ++ "\n" ++ joinNL rest

-- list membership with String equality, as Vec::contains
def listHas (l : List String) (a : String) : Bool :=
  match l with
  | [] => false
  | b :: rest => (b == a) || listHas rest a

-- ## Block list store (add_to_blocklist / remove_from_blocklist / load_blocklist)
-- The persisted file is modelled as an optional string: none when the file
-- does not exist, some content otherwise.

def add_to_blocklist (file : Option String) (mac : String) : Option String :=
  some ((file.getD "") ++ mac ++ "\n")

def remove_from_blocklist (file : Option String) (mac : String) : Option String :=
  match file with
  | none => none
  | some content =>
      some (joinNL ((rustLines content).filter (fun l => !strEqIC l mac)))

def load_blocklist (file : Option String) : List String :=
  match file with
  | none => []
  | some content =>
      ((rustLines content).filter (fun l => !l.isEmpty)).map strUpper

-- ## freq_to_channel

def fixed_freqs : List Nat :=
  [2412, 2417, 2422, 2427, 2432, 2437, 2442, 2447, 2452, 2457, 2462, 2467, 2472, 2484,
   5180, 5200, 5220, 5240, 5260, 5280, 5300, 5320, 5500, 5520, 5540, 5560, 5580, 5600,
   5620, 5640, 5660, 5680, 5700, 5720, 5745, 5765, 5785, 5805, 5825]

def freq_to_channel (freq : Nat) : Nat :=
  if freq = 2412 then 1 else if freq = 2417 then 2 else if freq = 2422 then 3
  else if freq = 2427 then 4 else if freq = 2432 then 5 else if freq = 2437 then 6
  else if freq = 2442 then 7 else if freq = 2447 then 8 else if freq = 2452 then 9
  else if freq = 2457 then 10 else if freq = 2462 then 11 else if freq = 2467 then 12
  else if freq = 2472 then 13 else if freq = 2484 then 14
  else if freq = 5180 then 36 else if freq = 5200 then 40 else if freq = 5220 then 44
  else if freq = 5240 then 48 else if freq = 5260 then 52 else if freq = 5280 then 56
  else if freq = 5300 then 60 else if freq = 5320 then 64 else if freq = 5500 then 100
  else if freq = 5520 then 104 else if freq = 5540 then 108 else if freq = 5560 then 112
  else if freq = 5580 then 116 else if freq = 5600 then 120 else if freq = 5620 then 124
  else if freq = 5640 then 128 else if freq = 5660 then 132 else if freq = 5680 then 136
  else if freq = 5700 then 140 else if freq = 5720 then 144 else if freq = 5745 then 149
  else if freq = 5765 then 153 else if freq = 5785 then 157 else if freq = 5805 then 161
  else if freq = 5825 then 165
  else if 2412 ≤ freq ∧ freq ≤ 2484 then (freq - 2407) / 5
  else if 5180 ≤ freq ∧ freq ≤ 5825 then (freq - 5000) / 5
  else 0

-- ## Privileged channel (run_as_root) state model
-- lockOk models helper.lock() returning Ok; child models the optional helper
-- process; stdin models the optional pipe with oracles for the outcome of the
-- write and of the flush.  The source performs the flush but discards its
-- result, returning true as soon as the write succeeded.

structure StdinPipe where
  writeOk : Bool
  flushOk : Bool
deriving DecidableEq

structure HelperChild where
  stdin : Option StdinPipe
deriving DecidableEq

structure RootHelperSt where
  lockOk : Bool
  child : Option HelperChild
deriving DecidableEq

def run_as_root (helper : RootHelperSt) (command : String) : Bool :=
  if helper.lockOk then
    match helper.child with
    | some c =>
        match c.stdin with
        | some pipe => if pipe.writeOk then true else false
        | none => false
    | none => false
  else false

-- ## block_device / unblock_device with their privileged-action traces

inductive PrivAction where
  | submitAttempt : String → PrivAction
  | directInvoke : String → PrivAction
  | sleepMs : Nat → PrivAction
deriving DecidableEq

def isSubmitAttempt : PrivAction → Bool
  | .submitAttempt _ => true
  | _ => false

def isDirectInvoke : PrivAction → Bool
  | .directInvoke _ => true
  | _ => false

def block_cmd (mac : String) : String :=
  "iptables -I FORWARD 1 -m mac --mac-source " ++ mac ++ " -j DROP; " ++
  "iptables -I INPUT 1 -m mac --mac-source " ++ mac ++ " -j DROP"

def unblock_cmd (mac : String) : String :=
  "iptables -D FORWARD -m mac --mac-source " ++ mac ++ " -j DROP 2>/dev/null; " ++
  "iptables -D INPUT -m mac --mac-source " ++ mac ++ " -j DROP 2>/dev/null"

-- directOk is the oracle for the exit status of the one-shot pkexec fallback
def block_device (mac interface : String) (helper : RootHelperSt) (directOk : Bool) :
    Bool × List PrivAction :=
  if run_as_root helper (block_cmd mac) then
    (true, [.submitAttempt (block_cmd mac), .sleepMs 100])
  else
    (directOk, [.submitAttempt (block_cmd mac), .directInvoke (block_cmd mac)])

def unblock_device (mac : String) : List PrivAction :=
  [.directInvoke (unblock_cmd mac)]

-- ## Hotspot session controller (start_hotspot / stop_hotspot / click handler)

structure SpawnReq where
  program : String
  args : List String
deriving DecidableEq

-- The daemon launch happens on a background thread; the returned list holds
-- the spawn requests the call causes to be issued.
def start_hotspot (interface : String) (channel : Nat) (ssid password : String) :
    Except String String × List SpawnReq :=
  if ssid.isEmpty then (.error "SSID required", [])
  else if password.length < 8 then (.error "Password needs 8+ chars", [])
  else (.ok ("Hotspot \x27" ++ ssid ++ "\x27 starting..."),
        [⟨"pkexec", ["create_ap", "-c", toString channel, interface, interface, ssid, password]⟩])

def isOkE (r : Except String String) : Bool :=
  match r with
  | .ok _ => true
  | .error _ => false

-- spawnRes is the outcome of spawning the stop command (Ok handle or error)
def stop_hotspot (interface : String) (spawnRes : Except String Unit) : String :=
  match spawnRes with
  | .ok _ => "Stopped on " ++ interface
  | .error e => "Error: " ++ e

structure UiState where
  running : Bool
  ssidEditable : Bool
  passEditable : Bool
  devicesVisible : Bool
  statusText : String
deriving DecidableEq

-- the running branch of action_button.connect_clicked
def stop_branch (interface : String) (spawnRes : Except String Unit) : UiState :=
  { running := false, ssidEditable := true, passEditable := true,
    devicesVisible := false, statusText := stop_hotspot interface spawnRes }

def action_click (st : UiState) (interface : String) (channel : Nat) (ssid password : String)
    (stopRes : Except String Unit) : UiState :=
  if st.running then stop_branch interface stopRes
  else
    match (start_hotspot interface channel ssid password).1 with
    | .ok msg => { running := true, ssidEditable := false, passEditable := false,
                   devicesVisible := true, statusText := msg }
    | .error msg => { st with statusText := msg }

-- ## Capability prober (check_compatibility)
-- The two regular expressions are (?i)#\x7b[^\x7d]*\bmanaged\b[^\x7d]*\x7d and
-- the same with ap; a match is a hash-brace group whose brace-free contents
-- contain the token with word boundaries, case-insensitively.

def tokAt (tok cs : List Char) : Bool :=
  (cs.take tok.length).map asciiLower == tok

def boundaryOpt : Option Char → Bool
  | none => true
  | some c => !isWordChar c

def hasWordTokAux (tok : List Char) : Option Char → List Char → Bool
  | _, [] => false
  | prev, c :: rest =>
      (tokAt tok (c :: rest) && boundaryOpt prev &&
        boundaryOpt ((c :: rest).drop tok.length).head?)
      || hasWordTokAux tok (some c) rest

-- the group contents sit between the braces, which are non-word characters,
-- so both edges of the contents count as word boundaries
def hasWordTok (tok cs : List Char) : Bool :=
  hasWordTokAux tok none cs

def groupCheck (tok : List Char) (afterHash : List Char) : Bool :=
  match afterHash with
  | c :: inner =>
      c = openBrace && inner.any (fun d => d = closeBrace) &&
      hasWordTok tok (inner.takeWhile (fun d => d ≠ closeBrace))
  | [] => false

def lineHasGroupWith (tok : List Char) : List Char → Bool
  | [] => false
  | c :: rest => (c = '#' && groupCheck tok rest) || lineHasGroupWith tok rest

def lineQualifies (line : List Char) : Bool :=
  lineHasGroupWith "managed".data line && lineHasGroupWith "ap".data line

def containsSub (p : List Char) : List Char → Bool
  | [] => p.isEmpty
  | c :: rest => startsWithL p (c :: rest) || containsSub p rest

def validComboKey : List Char := "valid interface combinations".data

def ccLoop : List (List Char) → Bool → Bool × String
  | [], _ => (false, "AP+Managed not found")
  | line :: rest, inValid =>
      if containsSub validComboKey line then ccLoop rest true
      else if inValid then
        if !startsWithL ['\t'] line && !startsWithL [' '] line && !line.isEmpty then
          ccLoop rest false
        else if lineQualifies line then (true, "AP+Managed supported")
        else ccLoop rest true
      else ccLoop rest false

-- the argument is the outcome of running the diagnostic query (iw list)
def check_compatibility (out : Except String String) : Bool × String :=
  match out with
  | .error e => (false, "iw list failed: " ++ e)
  | .ok stdout => ccLoop (charLines stdout.data) false

-- ## Device tracker (get_connected_devices / get_hostname_for_mac)

-- Rust str::split_whitespace
def splitWSAux : List Char → List Char → List (List Char)
  | [], cur => if cur.isEmpty then [] else [cur.reverse]
  | c :: rest, cur =>
      if isWSChar c then
        if cur.isEmpty then splitWSAux rest []
        else cur.reverse :: splitWSAux rest []
      else splitWSAux rest (c :: cur)

def splitWS (l : List Char) : List (List Char) :=
  splitWSAux l []

def leaseLineHost (mac : String) (line : List Char) : Option (List Char) :=
  match splitWS line with
  | _ :: p1 :: _ :: p3 :: _ => if eqICList p1 mac.data then some p3 else none
  | _ => none

def leaseScan (mac : String) : List (List Char) → Option (List Char)
  | [] => none
  | line :: rest =>
      match leaseLineHost mac line with
      | some h => some h
      | none => leaseScan mac rest

-- the list holds, in order, the contents of the known lease file paths
-- (none when a path cannot be read)
def get_hostname_for_mac (leases : List (Option String)) (mac : String) : String :=
  match leases with
  | [] => ""
  | none :: rest => get_hostname_for_mac rest mac
  | some content :: rest =>
      match leaseScan mac (charLines content.data) with
      | some h => String.mk h
      | none => get_hostname_for_mac rest mac

-- scanner for the regular expression Station ([0-9a-fA-F:]\x7b17\x7d):
-- successive non-overlapping matches, scanning left to right.  The fuel is the
-- length of the text; every step consumes at least one character, so the fuel
-- never runs out.
def stationKey : List Char := "Station ".data

def scanStationsF : Nat → List Char → List (List Char)
  | 0, _ => []
  | _, [] => []
  | fuel + 1, s@(_ :: rest) =>
      if startsWithL stationKey s then
        if ((s.drop 8).take 17).length = 17 && ((s.drop 8).take 17).all isMacChar then
          (s.drop 8).take 17 :: scanStationsF fuel ((s.drop 8).drop 17)
        else scanStationsF fuel rest
      else scanStationsF fuel rest

def scanStations (s : List Char) : List (List Char) :=
  scanStationsF s.length s

-- deterministic matcher for (\d+\.\d+\.\d+\.\d+)\s+\S+\s+([0-9a-fA-F:]\x7b17\x7d)
-- at the start of the text; each greedy piece is forced because the character
-- that must follow it is excluded from its class
def digitsThenDot (s : List Char) : Option (List Char) :=
  if (s.takeWhile Char.isDigit).isEmpty then none
  else
    match s.dropWhile Char.isDigit with
    | '.' :: r => some r
    | _ => none

def digitsRun (s : List Char) : Option (List Char) :=
  if (s.takeWhile Char.isDigit).isEmpty then none
  else some (s.dropWhile Char.isDigit)

def wsRun (s : List Char) : Option (List Char) :=
  if (s.takeWhile isWSChar).isEmpty then none
  else some (s.dropWhile isWSChar)

def nonWsRun (s : List Char) : Option (List Char) :=
  if (s.takeWhile (fun c => !isWSChar c)).isEmpty then none
  else some (s.dropWhile (fun c => !isWSChar c))

def matchArpAt (s : List Char) : Option (List Char × List Char) :=
  match digitsThenDot s with
  | none => none
  | some s1 =>
    match digitsThenDot s1 with
    | none => none
    | some s2 =>
      match digitsThenDot s2 with
      | none => none
      | some s3 =>
        match digitsRun s3 with
        | none => none
        | some s4 =>
          match wsRun s4 with
          | none => none
          | some s5 =>
            match nonWsRun s5 with
            | none => none
            | some s6 =>
              match wsRun s6 with
              | none => none
              | some s7 =>
                if (s7.take 17).length = 17 && (s7.take 17).all isMacChar then
                  some (s7.take 17, s7.drop 17)
                else none

def scanArpF : Nat → List Char → List (List Char)
  | 0, _ => []
  | _, [] => []
  | fuel + 1, s@(_ :: rest) =>
      match matchArpAt s with
      | some (mac, after) => mac :: scanArpF fuel after
      | none => scanArpF fuel rest

def scanArp (s : List Char) : List (List Char) :=
  scanArpF s.length s

def macUp (mac : List Char) : String :=
  String.mk (mac.map asciiUpper)

def hasMac (acc : List (String × String)) (m : String) : Bool :=
  match acc with
  | [] => false
  | p :: rest => (p.1 == m) || hasMac rest m

def stationLoop (blocked : List String) (leases : List (Option String))
    (acc : List (String × String)) : List (List Char) → List (String × String)
  | [] => acc
  | mac :: rest =>
      if listHas blocked (macUp mac) then stationLoop blocked leases acc rest
      else
        stationLoop blocked leases
          (acc ++ [(macUp mac, get_hostname_for_mac leases (macUp mac))]) rest

def arpLoop (blocked : List String) (leases : List (Option String))
    (acc : List (String × String)) : List (List Char) → List (String × String)
  | [] => acc
  | mac :: rest =>
      if !listHas blocked (macUp mac) && !hasMac acc (macUp mac) then
        arpLoop blocked leases
          (acc ++ [(macUp mac, get_hostname_for_mac leases (macUp mac))]) rest
      else arpLoop blocked leases acc rest

def gcd_fallback (blocked : List String) (leases : List (Option String))
    (arpOut : Option String) (devices : List (String × String)) : List (String × String) :=
  if devices.isEmpty then
    match arpOut with
    | some out => arpLoop blocked leases devices (scanArp out.data)
    | none => devices
  else devices

-- stationOut and arpOut are the outcomes of the iw station dump and of arp -n
-- (none when the command could not be run); blockFile is the persisted store.
def get_connected_devices (stationOut arpOut : Option String)
    (leases : List (Option String)) (blockFile : Option String) : List (String × String) :=
  gcd_fallback (load_blocklist blockFile) leases arpOut
    (match stationOut with
     | some out => stationLoop (load_blocklist blockFile) leases [] (scanStations out.data)
     | none => [])

-- declarative description of the primary source: the station MACs, uppercased,
-- that are not block-listed, each paired with its resolved hostname
def primaryDevices (st : String) (leases : List (Option String))
    (blockFile : Option String) : List (String × String) :=
  (((scanStations st.data).map macUp).filter
      (fun m => !listHas (load_blocklist blockFile) m)).map
    (fun m => (m, get_hostname_for_mac leases m))

instance {α β : Type} [DecidableEq α] [DecidableEq β] : DecidableEq (Except α β) := fun x y =>
  match x, y with
  | .ok a, .ok b =>
      if h : a = b then .isTrue (by rw [h]) else .isFalse (fun hc => h (Except.ok.inj hc))
  | .error a, .error b =>
      if h : a = b then .isTrue (by rw [h]) else .isFalse (fun hc => h (Except.error.inj hc))
  | .ok _, .error _ => .isFalse (fun hc => Except.noConfusion hc)
  | .error _, .ok _ => .isFalse (fun hc => Except.noConfusion hc)

-- ## Concrete fixtures used by the theorems

def flushFailPipe : StdinPipe := ⟨true, false⟩

def flushFailHelper : RootHelperSt := ⟨true, some ⟨some flushFailPipe⟩⟩

def goodText : String :=
  "Wiphy phy0\n\tvalid interface combinations:\n\t\t * #\x7b managed \x7d <= 1, #\x7b AP \x7d <= 1\n\tHT Capability\n"

def managedOnlyText : String :=
  "Wiphy phy0\n\tvalid interface combinations:\n\t\t * #\x7b managed \x7d <= 2\n"

def exampleDump : String :=
  "Station aa:bb:cc:dd:ee:01 (on wlan0)\n\tinactive time:\t100 ms\nStation aa:bb:cc:dd:ee:02 (on wlan0)\n"

def exampleBlock : String := "AA:BB:CC:DD:EE:01\n"

def leaseEx : String :=
  "1699999999 aa:bb:cc:dd:ee:02 192.168.12.23 phone 01:aa:bb:cc:dd:ee:02\n"

def arpEx : String :=
  "192.168.12.5 ether aa:bb:cc:dd:ee:99 C ap0\n192.168.12.6 ether aa:bb:cc:dd:ee:99 C ap0\n"

-- the add/remove sequence add 01, add 02, remove 01, add 03 on an initially
-- missing block-list file
def bugSeqFile : Option String :=
  add_to_blocklist (remove_from_blocklist
    (add_to_blocklist (add_to_blocklist none "AA:BB:CC:DD:EE:01") "AA:BB:CC:DD:EE:02")
    "AA:BB:CC:DD:EE:01") "AA:BB:CC:DD:EE:03"

-- ## Theorems

/-- C1 counterexample: with the lock acquired, the helper present and a stdin
pipe whose write succeeds but whose flush fails, run_as_root still returns
true, so the claim that a flush failure makes it return false is wrong: the
source discards the flush result. -/
theorem run_as_root_flush_ignored :
    run_as_root flushFailHelper "iptables -L" = true ∧ flushFailPipe.flushOk = false := by
  decide

/-- C1 (amended): run_as_root returns true exactly when the channel lock is
acquired, a helper child with a stdin pipe exists, and the write of the
command plus newline succeeds; the flush is attempted but its result is
ignored. -/
theorem run_as_root_submit_spec :
    ∀ (st : RootHelperSt) (cmd : String),
      run_as_root st cmd = true ↔
        (st.lockOk = true ∧ ∃ c, st.child = some c ∧ ∃ p, c.stdin = some p ∧ p.writeOk = true) := by
  intro st cmd
  obtain ⟨l, c⟩ := st
  cases l with
  | false => simp [run_as_root]
  | true =>
    cases c with
    | none => simp [run_as_root]
    | some ch =>
      obtain ⟨sd⟩ := ch
      cases sd with
      | none => simp [run_as_root]
      | some pipe =>
        obtain ⟨w, f⟩ := pipe
        cases w <;> simp [run_as_root]

/-- C6 counterexample: unblock_device issues its direct one-shot elevated
invocation without ever attempting submit on the privileged channel, so the
claim that every privileged mutation first attempts submit is wrong. -/
theorem unblock_device_no_submit :
    (unblock_device "AA:BB:CC:DD:EE:01").any isSubmitAttempt = false ∧
    (unblock_device "AA:BB:CC:DD:EE:01").any isDirectInvoke = true := by
  decide

/-- C6 (amended): block_device first attempts submit on the privileged channel
and performs the direct one-shot elevated invocation exactly when the submit
fails (in particular when the channel was never opened); unblock_device never
attempts the channel and always performs the direct invocation. -/
theorem privileged_mutation_fallback :
    ∀ (st : RootHelperSt) (d : Bool) (mac interface : String),
      (block_device mac interface st d).2.head? = some (.submitAttempt (block_cmd mac)) ∧
      ((block_device mac interface st d).2.any isDirectInvoke = !run_as_root st (block_cmd mac)) ∧
      (unblock_device mac).any isSubmitAttempt = false ∧
      (unblock_device mac).any isDirectInvoke = true := by
  intro st d mac interface
  cases h : run_as_root st (block_cmd mac) <;>
    simp [block_device, h, unblock_device, isSubmitAttempt, isDirectInvoke]

/-- C7 (code bug): after add 01, add 02, remove 01, add 03, the persisted file
holds the single line AA:BB:CC:DD:EE:02AA:BB:CC:DD:EE:03: remove rewrites the
file without a trailing newline, so the next append merges with the last line
and the one-MAC-per-line invariant is broken. -/
theorem blocklist_line_invariant_bug :
    bugSeqFile = some "AA:BB:CC:DD:EE:02AA:BB:CC:DD:EE:03\n" ∧
    rustLines "AA:BB:CC:DD:EE:02AA:BB:CC:DD:EE:03\n" = ["AA:BB:CC:DD:EE:02AA:BB:CC:DD:EE:03"] ∧
    ¬ ("AA:BB:CC:DD:EE:02" ∈ rustLines "AA:BB:CC:DD:EE:02AA:BB:CC:DD:EE:03\n") ∧
    ¬ ("AA:BB:CC:DD:EE:03" ∈ rustLines "AA:BB:CC:DD:EE:02AA:BB:CC:DD:EE:03\n") := by
  decide

/-- C8 (code bug): in the same sequence the final add of AA:BB:CC:DD:EE:03 is
not visible to a fresh load_blocklist, which returns only the merged line, so
the add round trip fails after a remove. -/
theorem blocklist_roundtrip_bug :
    load_blocklist bugSeqFile = ["AA:BB:CC:DD:EE:02AA:BB:CC:DD:EE:03"] ∧
    ¬ ("AA:BB:CC:DD:EE:03" ∈ load_blocklist bugSeqFile) := by
  decide

/-- C9: stop_hotspot always returns a status string (success or the launch
error verbatim, never an error value), and the click handler leaves the
session not running after a stop regardless of the spawn outcome; the stop
branch produces a non-running state from any prior state, so stopping when
already idle keeps the state idle. -/
theorem stop_transitions_to_idle :
    ∀ (interface : String) (res : Except String Unit),
      (stop_branch interface res).running = false ∧
      (∀ (e1 e2 e3 : Bool) (t : String) (ch : Nat) (ssid pw : String),
          (action_click ⟨true, e1, e2, e3, t⟩ interface ch ssid pw res).running = false) ∧
      stop_hotspot interface (.ok ()) = "Stopped on " ++ interface ∧
      (∀ e, stop_hotspot interface (.error e) = "Error: " ++ e) := by
  intro interface res
  exact ⟨rfl, fun e1 e2 e3 t ch ssid pw => rfl, rfl, fun e => rfl⟩

/-- C2: start_hotspot rejects an empty ssid or a password shorter than 8
characters with a validation error and no spawn request, and accepts any
non-empty ssid with a password of length at least 8; in particular the three
listed inputs behave as claimed. -/
theorem start_hotspot_validation :
    (∀ (interface : String) (ch : Nat) (pw : String),
        start_hotspot interface ch "" pw = (.error "SSID required", [])) ∧
    (∀ (interface : String) (ch : Nat) (ssid pw : String),
        ssid ≠ "" → pw.length < 8 →
        start_hotspot interface ch ssid pw = (.error "Password needs 8+ chars", [])) ∧
    (∀ (interface : String) (ch : Nat) (ssid pw : String),
        ssid ≠ "" → 8 ≤ pw.length →
        isOkE (start_hotspot interface ch ssid pw).1 = true ∧
        (start_hotspot interface ch ssid pw).2 ≠ []) ∧
    isOkE (start_hotspot "wlan0" 6 "" "anything12").1 = false ∧
    isOkE (start_hotspot "wlan0" 6 "net" "short").1 = false ∧
    isOkE (start_hotspot "wlan0" 6 "net" "12345678").1 = true := by
  refine ⟨?_, ?_, ?_, by decide, by decide, by decide⟩
  · intro interface ch pw
    have he : ("" : String).isEmpty = true := by decide
    simp [start_hotspot, he]
  · intro interface ch ssid pw h1 h2
    simp [start_hotspot, String.isEmpty_iff, h1, h2]
  · intro interface ch ssid pw h1 h2
    have h3 : ¬ pw.length < 8 := by omega
    simp [start_hotspot, String.isEmpty_iff, h1, h3, isOkE]

/-- C2 witness: both hypothetical parts instantiated at concrete inputs. -/
theorem start_hotspot_validation_witness :
    start_hotspot "wlan0" 1 "net" "1234567" = (.error "Password needs 8+ chars", []) ∧
    (isOkE (start_hotspot "wlan0" 6 "net" "12345678").1 = true ∧
      (start_hotspot "wlan0" 6 "net" "12345678").2 ≠ []) :=
  ⟨start_hotspot_validation.2.1 "wlan0" 1 "net" "1234567" (by decide) (by decide),
   start_hotspot_validation.2.2.1 "wlan0" 6 "net" "12345678" (by decide) (by decide)⟩

/-- C10: start_hotspot does not validate its interface or channel arguments:
for every interface string, including the empty one, and every channel, a
non-empty ssid and a password of length at least 8 produce the starting
message and a launch of the daemon with exactly those arguments. -/
theorem start_hotspot_no_arg_validation :
    ∀ (interface : String) (ch : Nat) (ssid pw : String),
      ssid ≠ "" → 8 ≤ pw.length →
      start_hotspot interface ch ssid pw =
        (.ok ("Hotspot \x27" ++ ssid ++ "\x27 starting..."),
         [⟨"pkexec", ["create_ap", "-c", toString ch, interface, interface, ssid, pw]⟩]) := by
  intro interface ch ssid pw h1 h2
  have h3 : ¬ pw.length < 8 := by omega
  simp [start_hotspot, String.isEmpty_iff, h1, h3]

/-- C10 witness: instantiated at the empty interface and channel 0. -/
theorem start_hotspot_no_arg_validation_witness :
    start_hotspot "" 0 "net" "12345678" =
      (.ok ("Hotspot \x27" ++ "net" ++ "\x27 starting..."),
       [⟨"pkexec", ["create_ap", "-c", toString 0, "", "", "net", "12345678"]⟩]) :=
  start_hotspot_no_arg_validation "" 0 "net" "12345678" (by decide) (by decide)

set_option maxRecDepth 400000 in
set_option maxHeartbeats 1000000 in
/-- C3: the fixed table maps 2437 to 6 and 5180 to 36, 2400 maps to 0, and for
frequencies outside the table the band formulas apply on 2412-2484 and
5180-5825 while everything outside both ranges maps to 0. -/
theorem freq_to_channel_spec :
    freq_to_channel 2437 = 6 ∧ freq_to_channel 5180 = 36 ∧ freq_to_channel 2400 = 0 ∧
    (∀ f : Nat, 2412 ≤ f → f ≤ 2484 → f ∉ fixed_freqs → freq_to_channel f = (f - 2407) / 5) ∧
    (∀ f : Nat, 5180 ≤ f → f ≤ 5825 → f ∉ fixed_freqs → freq_to_channel f = (f - 5000) / 5) ∧
    (∀ f : Nat, (f < 2412 ∨ (2484 < f ∧ f < 5180) ∨ 5825 < f) → freq_to_channel f = 0) := by
  refine ⟨by decide, by decide, by decide, ?_, ?_, ?_⟩
  · intro f h1 h2 h3
    have hf : f - 2412 + 2412 = f := by omega
    have hb : ∀ g : Nat, g < 73 → (g + 2412) ∉ fixed_freqs →
        freq_to_channel (g + 2412) = ((g + 2412) - 2407) / 5 := by decide
    have hg := hb (f - 2412) (by omega) (by rw [hf]; exact h3)
    rw [hf] at hg
    exact hg
  · intro f h1 h2 h3
    have hf : f - 5180 + 5180 = f := by omega
    have hb : ∀ g : Nat, g < 646 → (g + 5180) ∉ fixed_freqs →
        freq_to_channel (g + 5180) = ((g + 5180) - 5000) / 5 := by decide
    have hg := hb (f - 5180) (by omega) (by rw [hf]; exact h3)
    rw [hf] at hg
    exact hg
  · intro f h
    unfold freq_to_channel
    repeat rw [if_neg (by omega)]

/-- C3 witness: the three hypothetical parts instantiated at 2479, 5185 and
9999. -/
theorem freq_to_channel_spec_witness :
    freq_to_channel 2479 = (2479 - 2407) / 5 ∧ freq_to_channel 5185 = (5185 - 5000) / 5 ∧
    freq_to_channel 9999 = 0 :=
  ⟨freq_to_channel_spec.2.2.2.1 2479 (by decide) (by decide) (by decide),
   freq_to_channel_spec.2.2.2.2.1 5185 (by decide) (by decide) (by decide),
   freq_to_channel_spec.2.2.2.2.2 9999 (by decide)⟩

/-- C4: a capability text whose valid interface combinations section has a
line with both a managed group and an AP group is supported; a section with
only managed groups is not; a failed launch of the diagnostic query yields
unsupported with the failure detail. -/
theorem check_compatibility_spec :
    check_compatibility (.ok goodText) = (true, "AP+Managed supported") ∧
    check_compatibility (.ok managedOnlyText) = (false, "AP+Managed not found") ∧
    ∀ e : String, check_compatibility (.error e) = (false, "iw list failed: " ++ e) :=
  ⟨by decide, by decide, fun e => rfl⟩

-- helper lemmas for the device tracker

lemma listHas_iff (l : List String) (a : String) : listHas l a = true ↔ a ∈ l := by
  induction l with
  | nil => simp [listHas]
  | cons b rest ih =>
      simp only [listHas, Bool.or_eq_true, beq_iff_eq, ih, List.mem_cons]
      constructor
      · rintro (h | h)
        · exact Or.inl h.symm
        · exact Or.inr h
      · rintro (h | h)
        · exact Or.inl h.symm
        · exact Or.inr h

lemma hasMac_iff (acc : List (String × String)) (m : String) :
    hasMac acc m = true ↔ m ∈ acc.map Prod.fst := by
  induction acc with
  | nil => simp [hasMac]
  | cons p rest ih =>
      simp only [hasMac, Bool.or_eq_true, beq_iff_eq, ih, List.map_cons, List.mem_cons]
      constructor
      · rintro (h | h)
        · exact Or.inl h.symm
        · exact Or.inr h
      · rintro (h | h)
        · exact Or.inl h.symm
        · exact Or.inr h

lemma stationLoop_append (blocked : List String) (leases : List (Option String)) :
    ∀ (l : List (List Char)) (acc : List (String × String)),
      stationLoop blocked leases acc l =
        acc ++ ((l.map macUp).filter (fun m => !listHas blocked m)).map
          (fun m => (m, get_hostname_for_mac leases m)) := by
  intro l
  induction l with
  | nil => intro acc; simp [stationLoop]
  | cons mac rest ih =>
      intro acc
      cases h : listHas blocked (macUp mac) <;>
        simp [stationLoop, h, ih, List.filter_cons]

lemma arpLoop_inv (blocked : List String) (leases : List (Option String)) :
    ∀ (l : List (List Char)) (acc : List (String × String)),
      (acc.map Prod.fst).Nodup → (∀ p ∈ acc, p.1 ∉ blocked) →
      ((arpLoop blocked leases acc l).map Prod.fst).Nodup ∧
        (∀ p ∈ arpLoop blocked leases acc l, p.1 ∉ blocked) := by
  intro l
  induction l with
  | nil =>
      intro acc h1 h2
      have hnil : arpLoop blocked leases acc [] = acc := rfl
      rw [hnil]
      exact ⟨h1, h2⟩
  | cons mac rest ih =>
      intro acc h1 h2
      cases hc : (!listHas blocked (macUp mac) && !hasMac acc (macUp mac))
      · have : arpLoop blocked leases acc (mac :: rest) = arpLoop blocked leases acc rest := by
          simp [arpLoop, hc]
        rw [this]
        exact ih acc h1 h2
      · rw [Bool.and_eq_true, Bool.not_eq_true', Bool.not_eq_true'] at hc
        obtain ⟨hb, ha⟩ := hc
        have hmemb : macUp mac ∉ blocked := by
          intro hm
          rw [(listHas_iff blocked (macUp mac)).mpr hm] at hb
          exact Bool.true_eq_false.mp hb
        have hmemf : macUp mac ∉ acc.map Prod.fst := by
          intro hm
          rw [(hasMac_iff acc (macUp mac)).mpr hm] at ha
          exact Bool.true_eq_false.mp ha
        have hstep : arpLoop blocked leases acc (mac :: rest) =
            arpLoop blocked leases
              (acc ++ [(macUp mac, get_hostname_for_mac leases (macUp mac))]) rest := by
          simp [arpLoop, hb, ha]
        rw [hstep]
        apply ih
        · simp only [List.map_append, List.map_cons, List.map_nil]
          rw [List.nodup_append]
          refine ⟨h1, List.nodup_singleton _, ?_⟩
          intro x hx hx1
          simp only [List.mem_singleton] at hx1
          exact hmemf (hx1 ▸ hx)
        · intro p hp
          rcases List.mem_append.mp hp with hp1 | hp2
          · exact h2 p hp1
          · simp only [List.mem_singleton] at hp2
            rw [hp2]
            exact hmemb

lemma gcd_fallback_of_ne (blocked : List String) (leases : List (Option String))
    (arpOut : Option String) (d : List (String × String)) (h : d ≠ []) :
    gcd_fallback blocked leases arpOut d = d := by
  cases d with
  | nil => exact absurd rfl h
  | cons p rest => simp [gcd_fallback]

/-- C5: while the filtered primary station-dump source is non-empty, poll
returns exactly the station MACs not in the block list, uppercased and paired
with the hostname resolved from the lease files or the empty string (the
two-station example with the first MAC blocked returns only the second); when
the primary source yields zero devices the neighbor table fallback is used and
its results are deduplicated by MAC and exclude block-listed MACs. -/
theorem get_connected_devices_spec :
    (∀ (st : String) (arp : Option String) (leases : List (Option String)) (bl : Option String),
        primaryDevices st leases bl ≠ [] →
        get_connected_devices (some st) arp leases bl = primaryDevices st leases bl) ∧
    (∀ (st : String) (arp : Option String) (leases : List (Option String)) (bl : Option String),
        primaryDevices st leases bl = [] →
        ((get_connected_devices (some st) arp leases bl).map Prod.fst).Nodup ∧
          (∀ p ∈ get_connected_devices (some st) arp leases bl, p.1 ∉ load_blocklist bl)) ∧
    get_connected_devices (some exampleDump) none [none, some leaseEx] (some exampleBlock) =
      [("AA:BB:CC:DD:EE:02", "phone")] := by
  have hkey : ∀ (st : String) (leases : List (Option String)) (bl : Option String),
      stationLoop (load_blocklist bl) leases [] (scanStations st.data) =
        primaryDevices st leases bl := by
    intro st leases bl
    rw [stationLoop_append]
    simp [primaryDevices]
  refine ⟨?_, ?_, by decide⟩
  · intro st arp leases bl h
    show gcd_fallback (load_blocklist bl) leases arp
        (stationLoop (load_blocklist bl) leases [] (scanStations st.data)) =
      primaryDevices st leases bl
    rw [hkey st leases bl]
    exact gcd_fallback_of_ne _ _ _ _ h
  · intro st arp leases bl h
    show ((gcd_fallback (load_blocklist bl) leases arp
          (stationLoop (load_blocklist bl) leases [] (scanStations st.data))).map Prod.fst).Nodup ∧
        (∀ p ∈ gcd_fallback (load_blocklist bl) leases arp
          (stationLoop (load_blocklist bl) leases [] (scanStations st.data)),
          p.1 ∉ load_blocklist bl)
    rw [hkey st leases bl, h]
    cases arp with
    | none => exact ⟨List.nodup_nil, by simp [gcd_fallback]⟩
    | some out =>
        have hfb : gcd_fallback (load_blocklist bl) leases (some out) [] =
            arpLoop (load_blocklist bl) leases [] (scanArp out.data) := rfl
        rw [hfb]
        exact arpLoop_inv (load_blocklist bl) leases (scanArp out.data) [] (by simp) (by simp)

/-- C5 witness: part one instantiated at the two-station example, part two at
an empty station dump with a neighbor-table fallback. -/
theorem get_connected_devices_spec_witness :
    get_connected_devices (some exampleDump) none [none, some leaseEx] (some exampleBlock) =
      primaryDevices exampleDump [none, some leaseEx] (some exampleBlock) ∧
    ((get_connected_devices (some "") (some arpEx) [] (some exampleBlock)).map Prod.fst).Nodup :=
  ⟨get_connected_devices_spec.1 exampleDump none [none, some leaseEx] (some exampleBlock)
      (by decide),
   (get_connected_devices_spec.2.1 "" (some arpEx) [] (some exampleBlock) (by decide)).1⟩
